import Mathlib

/-!
Shallow embedding of the OpenSky ETL scripts `a.DB_setup.py` and
`b.extract.py`.

The embedding models:
* JSON/Python values (`Val`) as returned by `response.json()`;
* Python primitive behaviour used by the source: truthiness, `len`,
  subscripting, `dict.get`, iteration, `str`, `str.strip`, `or`;
* the SQLite database as two in-memory relations (`opensky_data` with its
  primary key `(icao24, last_contact)` from `a.DB_setup.py`, and `etl_log`),
  with a connection carrying a committed snapshot and a pending
  transaction so that `conn.commit()` semantics are explicit;
* `log_etl_run` and `fetch_and_append_data` from `b.extract.py`, with the
  wall-clock timestamps (`datetime.now()` / `datetime.utcnow()`) and the
  outcome of the HTTP fetch (`requests.get` + `raise_for_status` +
  `.json()`) passed in as parameters, since they are ambient inputs;
* the `__main__` driver loop as a fold over a list of per-cycle inputs.

Exceptions raised by Python code inside the `try:` block are modelled by
`Except String`; DB statements themselves are total (SQLite writes are
local, and no claim concerns storage-level faults).
-/

namespace OpenSky

/- JSON/Python values: lists and dicts are mutual inductives so that
equality is derivable. -/
mutual
/-- JSON/Python value. `real` stands for Python floats (represented by
rationals; no claim computes with them, they only pass through). -/
inductive Val where
  | null
  | bool (b : Bool)
  | int (n : Int)
  | real (q : Rat)
  | str (s : String)
  | list (xs : ValList)
  | dict (kvs : ValDict)
  deriving DecidableEq, Repr
inductive ValList where
  | nil
  | cons (v : Val) (vs : ValList)
  deriving DecidableEq, Repr
inductive ValDict where
  | nil
  | cons (k : String) (v : Val) (kvs : ValDict)
  deriving DecidableEq, Repr
end

def ValList.toList : ValList → List Val
  | .nil => []
  | .cons v vs => v :: vs.toList

def ValList.ofList : List Val → ValList
  | [] => .nil
  | v :: vs => .cons v (ValList.ofList vs)

def ValDict.toList : ValDict → List (String × Val)
  | .nil => []
  | .cons k v kvs => (k, v) :: kvs.toList

/-- Convenience constructor for a JSON array. -/
def vlist (xs : List Val) : Val := .list (ValList.ofList xs)

/-- Python truthiness (`if x:`): None, False, 0, 0.0, "", [] and {} are falsy. -/
def pyTruthy : Val → Bool
  | .null => false
  | .bool b => b
  | .int n => n != 0
  | .real q => q != 0
  | .str s => s != ""
  | .list .nil => false
  | .list (.cons _ _) => true
  | .dict .nil => false
  | .dict (.cons _ _ _) => true

/-- Python `x or y`. -/
def pyOr (a b : Val) : Val := if pyTruthy a then a else b

/-- Python `len(x)`: defined on strings, lists and dicts, a TypeError otherwise. -/
def pyLen : Val → Except String Nat
  | .str s => .ok s.length
  | .list xs => .ok xs.toList.length
  | .dict kvs => .ok kvs.toList.length
  | _ => .error "TypeError: object has no len()"

/-- Python subscripting `x[i]` for a nonnegative index. -/
def pyGetItem (v : Val) (i : Nat) : Except String Val :=
  match v with
  | .list xs =>
    match xs.toList.get? i with
    | some x => .ok x
    | none => .error "IndexError: list index out of range"
  | .str s =>
    match s.toList.get? i with
    | some c => .ok (.str (String.singleton c))
    | none => .error "IndexError: string index out of range"
  | _ => .error "TypeError: object is not subscriptable"

/-- Python `d.get(k, default)`: the stored value (even None) when the key is
present, the default when absent, an AttributeError on a non-dict. -/
def dictGet (v : Val) (k : String) (dflt : Val) : Except String Val :=
  match v with
  | .dict kvs =>
    match kvs.toList.find? (fun p => p.1 == k) with
    | some p => .ok p.2
    | none => .ok dflt
  | _ => .error "AttributeError: object has no attribute get"

/-- Python iteration `for x in v`: lists yield elements, strings their
characters, dicts their keys; anything else is a TypeError. -/
def pyIter : Val → Except String (List Val)
  | .list xs => .ok xs.toList
  | .str s => .ok (s.toList.map (fun c => .str (String.singleton c)))
  | .dict kvs => .ok (kvs.toList.map (fun p => Val.str p.1))
  | _ => .error "TypeError: object is not iterable"

/- Python str() rendering, mutual over the value/list/dict types. -/
mutual
/-- Python `str(x)` as used by `",".join(map(str, state[12]))`; nested
containers are rendered bracketed (an approximation of `repr`, exercised by
no claim — the sensor list is a list of scalars). -/
def pyStr : Val → String
  | .null => "None"
  | .bool true => "True"
  | .bool false => "False"
  | .int n => toString n
  | .real q => toString q
  | .str s => s
  | .list xs => "[" ++ pyStrList xs ++ "]"
  | .dict kvs => "\x7b" ++ pyStrDict kvs ++ "\x7d"
def pyStrList : ValList → String
  | .nil => ""
  | .cons v .nil => pyStr v
  | .cons v vs => pyStr v ++ ", " ++ pyStrList vs
def pyStrDict : ValDict → String
  | .nil => ""
  | .cons k v .nil => k ++ ": " ++ pyStr v
  | .cons k v kvs => k ++ ": " ++ pyStr v ++ ", " ++ pyStrDict kvs
end

/-- Python `str.strip()` with no argument: drop leading and trailing
whitespace characters. -/
def pyStripStr (s : String) : String :=
  String.mk (((s.toList.dropWhile Char.isWhitespace).reverse.dropWhile
    Char.isWhitespace).reverse)

/-- Python `v.strip()`: only strings have `strip`. -/
def pyStrip : Val → Except String Val
  | .str s => .ok (.str (pyStripStr s))
  | v =>
    match v with
    | _ => .error "AttributeError: object has no attribute strip"

/-- `state[1].strip() if state[1] else None` from `b.extract.py`. -/
def normCallsign (v : Val) : Except String Val :=
  if pyTruthy v then pyStrip v else .ok .null

/-- `",".join(map(str, state[12])) if state[12] else None` from `b.extract.py`. -/
def normSensors (v : Val) : Except String Val :=
  if pyTruthy v then
    match pyIter v with
    | .ok xs => .ok (.str (String.intercalate "," (xs.map pyStr)))
    | .error e => .error e
  else .ok .null

/-- One row of `opensky_data` (schema from `a.DB_setup.py`): the 17 state
vector fields plus the loader-assigned `fetch_time`.  Field values keep the
`Val` type of the source tuple; `fetch_time` is always the cycle's ISO
timestamp string. -/
structure ObsRecord where
  icao24 : Val
  callsign : Val
  origin_country : Val
  time_position : Val
  last_contact : Val
  longitude : Val
  latitude : Val
  baro_altitude : Val
  on_ground : Val
  velocity : Val
  true_track : Val
  vertical_rate : Val
  sensors : Val
  geo_altitude : Val
  squawk : Val
  spi : Val
  position_source : Val
  fetch_time : String
  deriving DecidableEq, Repr

/-- The natural key `PRIMARY KEY (icao24, last_contact)` of `opensky_data`. -/
def obsKey (r : ObsRecord) : Val × Val := (r.icao24, r.last_contact)

/-- Status domain of `etl_log.status` (CHECK constraint in `a.DB_setup.py`). -/
inductive RunStatus where
  | Running
  | Success
  | Failure
  deriving DecidableEq, Repr

/-- One row of `etl_log`. -/
structure RunRow where
  run_id : Nat
  start_time : String
  end_time : Option String
  records_processed : Option Int
  status : RunStatus
  error_message : Option String
  deriving DecidableEq, Repr

/-- The two relations created by `setup_database`. -/
structure DB where
  opensky_data : List ObsRecord
  etl_log : List RunRow
  deriving DecidableEq, Repr

/-- A SQLite connection: the committed (durable) database plus the pending
transaction state.  Autocommit is off for DML, so statements act on
`pending` and `commit` publishes it. -/
structure Conn where
  committed : DB
  pending : DB
  deriving DecidableEq, Repr

/-- `sqlite3.connect`: the pending state starts at the durable state. -/
def connect (db : DB) : Conn := ⟨db, db⟩

/-- `conn.commit()`: the pending transaction becomes durable. -/
def commit (c : Conn) : Conn := ⟨c.pending, c.pending⟩

/-- `conn.close()` without a commit: uncommitted pending changes are rolled
back, only the committed state persists.  Process termination mid-cycle has
the same effect on durable state. -/
def closeConn (c : Conn) : DB := c.committed

/-- AUTOINCREMENT on `etl_log.run_id`: the next rowid is strictly greater
than every existing one (the table is never deleted from). -/
def nextRunId (log : List RunRow) : Nat :=
  (log.map (fun r => r.run_id)).foldr max 0 + 1

/-- The `UPDATE etl_log SET end_time = ?, records_processed = ?, status = ?,
error_message = ? WHERE run_id = ?` statement of `log_etl_run`. -/
def updateRun (now_time : String) (status : RunStatus) (records : Int)
    (error_msg : Option String) (run_id : Nat) (log : List RunRow) : List RunRow :=
  log.map (fun r =>
    if r.run_id = run_id then
      { r with end_time := some now_time, records_processed := some records,
               status := status, error_message := error_msg }
    else r)

/-- Python truthiness of the `run_id` argument (`if run_id:` is false for
`None` and for `0`). -/
def optNatTruthy : Option Nat → Bool
  | none => false
  | some n => n != 0

/-- `log_etl_run` from `b.extract.py`.  With a truthy `run_id` it updates the
row and falls through to `conn.commit()`; otherwise it inserts a fresh row
and returns `cursor.lastrowid` immediately — before reaching the commit.
`now_time` stands for `datetime.now().isoformat()`. -/
def log_etl_run (c : Conn) (now_time : String) (status : RunStatus) (records : Int)
    (error_msg : Option String) (run_id : Option Nat) : Conn × Option Nat :=
  if optNatTruthy run_id then
    let p := { c.pending with
      etl_log := updateRun now_time status records error_msg (run_id.getD 0) c.pending.etl_log }
    (commit { c with pending := p }, none)
  else
    let rid := nextRunId c.pending.etl_log
    let p := { c.pending with etl_log := c.pending.etl_log ++
      [{ run_id := rid, start_time := now_time, end_time := none,
         records_processed := none, status := status, error_message := none }] }
    ({ c with pending := p }, some rid)

/-- Whether some stored row already carries the primary key of `r`. -/
def hasKey (store : List ObsRecord) (r : ObsRecord) : Bool :=
  store.any (fun x => obsKey x == obsKey r)

/-- One parameter row of the `INSERT OR IGNORE INTO opensky_data ...`
statement: a row whose primary key `(icao24, last_contact)` already exists
is ignored and contributes 0 to `sqlite3_changes`, otherwise it is appended
and contributes 1. -/
def insertOrIgnore (store : List ObsRecord) (r : ObsRecord) : List ObsRecord × Nat :=
  if hasKey store r then (store, 0) else (store ++ [r], 1)

/-- `cursor.executemany` over the batch: rows are processed in order inside
one transaction, and `cursor.rowcount` accumulates the per-row change
counts, so it counts exactly the rows actually inserted. -/
def insertMany : List ObsRecord → List ObsRecord → List ObsRecord × Nat
  | store, [] => (store, 0)
  | store, r :: rest =>
    let p := insertOrIgnore store r
    let q := insertMany p.1 rest
    (q.1, p.2 + q.2)

/-- The record-preparation `for state in (states or []):` loop of
`fetch_and_append_data`, applied to one `state`: a tuple shorter than 17
fields is skipped (`none`), otherwise the 18-field record is built.  Any
Python exception while handling the tuple (bad `len`, bad subscript,
`strip` on a non-string, joining a non-iterable) surfaces as `.error`. -/
def normState (fetch_time : String) (st : Val) : Except String (Option ObsRecord) := do
  let n ← pyLen st
  if 17 ≤ n then do
    let s0 ← pyGetItem st 0
    let s1 ← pyGetItem st 1
    let s2 ← pyGetItem st 2
    let s3 ← pyGetItem st 3
    let s4 ← pyGetItem st 4
    let s5 ← pyGetItem st 5
    let s6 ← pyGetItem st 6
    let s7 ← pyGetItem st 7
    let s8 ← pyGetItem st 8
    let s9 ← pyGetItem st 9
    let s10 ← pyGetItem st 10
    let s11 ← pyGetItem st 11
    let s12 ← pyGetItem st 12
    let s13 ← pyGetItem st 13
    let s14 ← pyGetItem st 14
    let s15 ← pyGetItem st 15
    let s16 ← pyGetItem st 16
    let cs ← normCallsign s1
    let sens ← normSensors s12
    pure (some
      { icao24 := s0, callsign := cs, origin_country := s2, time_position := s3,
        last_contact := s4, longitude := s5, latitude := s6, baro_altitude := s7,
        on_ground := s8, velocity := s9, true_track := s10, vertical_rate := s11,
        sensors := sens, geo_altitude := s13, squawk := s14, spi := s15,
        position_source := s16, fetch_time := fetch_time })
  else
    pure none

/-- The whole preparation loop: builds `records_to_insert` in order, short
tuples contributing nothing; the first tuple-level exception aborts the
cycle (nothing of the partial batch survives, since the insert never runs). -/
def buildRecords (fetch_time : String) : List Val → Except String (List ObsRecord)
  | [] => .ok []
  | st :: rest => do
    let r? ← normState fetch_time st
    let rs ← buildRecords fetch_time rest
    match r? with
    | some r => pure (r :: rs)
    | none => pure rs

/-- The body of the `try:` block of `fetch_and_append_data` after
`run_id = log_etl_run(conn, status='Running')` succeeded.  `fetched` is the
combined outcome of `requests.get` + `raise_for_status()` + `response.json()`
(`.error` for a network failure, timeout, non-2xx status or JSON error).
Every mutation of connection state happens after the last possible
exception point, so an `.error` result leaves the connection as it was. -/
def tryBody (c : Conn) (run_id : Nat) (fetched : Except String Val)
    (fetch_time end_time : String) : Except String Conn :=
  match fetched with
  | .error e => .error e
  | .ok data =>
    match dictGet data "states" (.list .nil) with
    | .error e => .error e
    | .ok states =>
      if pyTruthy states = false then
        .ok (log_etl_run c end_time .Success 0 none (some run_id)).1
      else
        match pyIter (pyOr states (.list .nil)) with
        | .error e => .error e
        | .ok stateList =>
          match buildRecords fetch_time stateList with
          | .error e => .error e
          | .ok records_to_insert =>
            match records_to_insert with
            | [] => .ok (log_etl_run c end_time .Success 0 none (some run_id)).1
            | r :: rest =>
              let ins := insertMany c.pending.opensky_data (r :: rest)
              let c2 := commit { c with pending :=
                { c.pending with opensky_data := ins.1 } }
              .ok (log_etl_run c2 end_time .Success (Int.ofNat ins.2) none
                (some run_id)).1

/-- `fetch_and_append_data` from `b.extract.py` for one cycle.
`start_time`, `fetch_time`, `end_time` stand for the three wall-clock reads;
`fetched` for the HTTP fetch outcome.  Returns the durable database after
the cycle together with the exception (if any) propagating to the caller:
the `except Exception` handler catches everything the `try` body raises,
logs the Failure when `conn and run_id` are truthy, and the `finally` block
closes the connection (rolling back whatever was not committed). -/
def fetch_and_append_data (db : DB) (start_time fetch_time end_time : String)
    (fetched : Except String Val) : DB × Option String :=
  let c0 := connect db
  let br := log_etl_run c0 start_time .Running 0 none none
  match tryBody br.1 (br.2.getD 0) fetched fetch_time end_time with
  | .ok c2 => (closeConn c2, none)
  | .error e =>
    if optNatTruthy br.2 then
      (closeConn (log_etl_run br.1 end_time .Failure 0 (some e) br.2).1, none)
    else
      (closeConn br.1, none)

/-- Whether the `try` body of this cycle raised (the condition under which
the `except` handler classifies the cycle as a Failure). -/
def cycleFailed (db : DB) (start_time fetch_time end_time : String)
    (fetched : Except String Val) : Bool :=
  let c0 := connect db
  let br := log_etl_run c0 start_time .Running 0 none none
  match tryBody br.1 (br.2.getD 0) fetched fetch_time end_time with
  | .error _ => true
  | .ok _ => false

/-- The ambient inputs of one driver iteration. -/
structure CycleInput where
  start_time : String
  fetch_time : String
  end_time : String
  fetched : Except String Val

/-- One iteration of the `__main__` loop. -/
def runOneCycle (db : DB) (i : CycleInput) : DB :=
  (fetch_and_append_data db i.start_time i.fetch_time i.end_time i.fetched).1

/-- The `__main__` driver: runs every scheduled cycle in order (the sleeps
between cycles perform no work). -/
def mainLoop (db : DB) (inputs : List CycleInput) : DB :=
  inputs.foldl runOneCycle db

/-- A raw value that is a tuple with fewer than 17 positional fields. -/
def isShortTuple : Val → Bool
  | .list xs => decide (xs.toList.length < 17)
  | _ => false

/-- A minimal observation record for concrete tests: identifier, last
contact and origin country chosen, everything else absent or false. -/
def sampleRec (i : String) (t : Int) (oc : String) : ObsRecord :=
  { icao24 := .str i, callsign := .null, origin_country := .str oc,
    time_position := .null, last_contact := .int t, longitude := .null,
    latitude := .null, baro_altitude := .null, on_ground := .bool false,
    velocity := .null, true_track := .null, vertical_rate := .null,
    sensors := .null, geo_altitude := .null, squawk := .null,
    spi := .bool false, position_source := .null, fetch_time := "f" }

/-- The raw state vector of the end-to-end scenario in the spec. -/
def c9_state : Val := vlist [.str "abc123", .str "UAL123 ", .str "United States",
  .int 1690000000, .int 1690000005, .real (101/10), .real (202/10), .real 3000,
  .bool false, .real 250, .real 90, .real 0, vlist [.int 1, .int 2], .real 3100,
  .str "1200", .bool false, .int 0, .null]

/-- The raw API response of the end-to-end scenario. -/
def c9_data : Val := .dict (.cons "states" (vlist [c9_state]) .nil)

/-- The stored observation the end-to-end scenario should produce. -/
def c9_record : ObsRecord :=
  { icao24 := .str "abc123", callsign := .str "UAL123",
    origin_country := .str "United States", time_position := .int 1690000000,
    last_contact := .int 1690000005, longitude := .real (101/10),
    latitude := .real (202/10), baro_altitude := .real 3000,
    on_ground := .bool false, velocity := .real 250, true_track := .real 90,
    vertical_rate := .real 0, sensors := .str "1,2", geo_altitude := .real 3100,
    squawk := .str "1200", spi := .bool false, position_source := .int 0,
    fetch_time := "ft" }

/-- A run-log row already in a terminal state, for double-close tests. -/
def c3_row : RunRow :=
  { run_id := 1, start_time := "s0", end_time := some "e1",
    records_processed := some 5, status := .Success, error_message := none }

/-- The Running row that begin_run inserts into this cycle's pending log. -/
def runningRow (db : DB) (sT : String) : RunRow :=
  { run_id := nextRunId db.etl_log, start_time := sT, end_time := none,
    records_processed := none, status := .Running, error_message := none }

end OpenSky

namespace OpenSky

/-! ## General lemmas about the loader (`INSERT OR IGNORE` + rowcount) -/

theorem hasKey_append (store store2 : List ObsRecord) (r : ObsRecord) :
    hasKey (store ++ store2) r = (hasKey store r || hasKey store2 r) := by
  simp [hasKey, List.any_append]

theorem hasKey_self_append (store : List ObsRecord) (r : ObsRecord) :
    hasKey (store ++ [r]) r = true := by
  simp [hasKey_append, hasKey]

theorem insertOrIgnore_of_hasKey (store : List ObsRecord) (r : ObsRecord)
    (h : hasKey store r = true) : insertOrIgnore store r = (store, 0) := by
  simp [insertOrIgnore, h]

theorem hasKey_insertOrIgnore_self (store : List ObsRecord) (r : ObsRecord) :
    hasKey (insertOrIgnore store r).1 r = true := by
  by_cases h : hasKey store r
  · simp [insertOrIgnore, h]
  · simp [insertOrIgnore, h, hasKey_self_append]

theorem hasKey_insertOrIgnore_mono (store : List ObsRecord) (r r' : ObsRecord)
    (h : hasKey store r = true) : hasKey (insertOrIgnore store r').1 r = true := by
  by_cases h' : hasKey store r'
  · simpa [insertOrIgnore, h'] using h
  · simp [insertOrIgnore, h', hasKey_append, h]

theorem hasKey_insertMany_mono (batch : List ObsRecord) (store : List ObsRecord)
    (r : ObsRecord) (h : hasKey store r = true) :
    hasKey (insertMany store batch).1 r = true := by
  induction batch generalizing store with
  | nil => simpa [insertMany] using h
  | cons b rest ih =>
    simpa [insertMany] using ih (insertOrIgnore store b).1
      (hasKey_insertOrIgnore_mono store r b h)

theorem hasKey_insertMany_of_mem (batch : List ObsRecord) (store : List ObsRecord)
    (r : ObsRecord) (hr : r ∈ batch) :
    hasKey (insertMany store batch).1 r = true := by
  induction batch generalizing store with
  | nil => cases hr
  | cons b rest ih =>
    rcases List.mem_cons.mp hr with h | h
    · subst h
      simpa [insertMany] using hasKey_insertMany_mono rest (insertOrIgnore store r).1 r
        (hasKey_insertOrIgnore_self store r)
    · simpa [insertMany] using ih (insertOrIgnore store b).1 h

theorem insertMany_of_all_present (batch : List ObsRecord) (store : List ObsRecord)
    (h : ∀ r ∈ batch, hasKey store r = true) :
    insertMany store batch = (store, 0) := by
  induction batch with
  | nil => rfl
  | cons b rest ih =>
    have hb := insertOrIgnore_of_hasKey store b (h b (List.mem_cons_self b rest))
    simp [insertMany, hb, ih (fun r hr => h r (List.mem_cons_of_mem b hr))]

theorem insertOrIgnore_length (store : List ObsRecord) (r : ObsRecord) :
    (insertOrIgnore store r).1.length = store.length + (insertOrIgnore store r).2 := by
  by_cases h : hasKey store r <;> simp [insertOrIgnore, h]

theorem insertMany_length (batch : List ObsRecord) (store : List ObsRecord) :
    (insertMany store batch).1.length = store.length + (insertMany store batch).2 := by
  induction batch generalizing store with
  | nil => rfl
  | cons b rest ih =>
    have h1 := insertOrIgnore_length store b
    have h2 := ih (insertOrIgnore store b).1
    simp only [insertMany]
    omega

theorem insertOrIgnore_nodupKeys (store : List ObsRecord) (r : ObsRecord)
    (h : (store.map obsKey).Nodup) :
    ((insertOrIgnore store r).1.map obsKey).Nodup := by
  by_cases hk : hasKey store r
  · simpa [insertOrIgnore, hk] using h
  · have hnot : ∀ x ∈ store, ¬ obsKey x = obsKey r := by
      simpa [hasKey] using hk
    simp only [insertOrIgnore, hk, if_false, Bool.false_eq_true, List.map_append,
      List.map_cons, List.map_nil]
    rw [List.nodup_append]
    refine ⟨h, List.nodup_singleton _, ?_⟩
    intro a ha hb
    rcases List.mem_map.mp ha with ⟨x, hx, hxa⟩
    rcases List.mem_singleton.mp hb with rfl
    exact hnot x hx hxa

theorem insertMany_nodupKeys (batch : List ObsRecord) (store : List ObsRecord)
    (h : (store.map obsKey).Nodup) :
    ((insertMany store batch).1.map obsKey).Nodup := by
  induction batch generalizing store with
  | nil => simpa [insertMany] using h
  | cons b rest ih =>
    simpa [insertMany] using ih (insertOrIgnore store b).1
      (insertOrIgnore_nodupKeys store b h)

/-! ## General lemmas about the run log -/

theorem le_foldr_max (l : List Nat) (x : Nat) (hx : x ∈ l) :
    x ≤ l.foldr max 0 := by
  induction l with
  | nil => cases hx
  | cons a t ih =>
    rcases List.mem_cons.mp hx with rfl | h
    · exact Nat.le_max_left _ _
    · exact Nat.le_trans (ih h) (Nat.le_max_right _ _)

theorem run_id_lt_nextRunId (log : List RunRow) (r : RunRow) (hr : r ∈ log) :
    r.run_id < nextRunId log := by
  have := le_foldr_max (log.map (fun r => r.run_id)) r.run_id
    (List.mem_map_of_mem _ hr)
  simp only [nextRunId]
  omega

theorem nextRunId_ne_zero (log : List RunRow) : nextRunId log ≠ 0 := by
  simp [nextRunId]

theorem updateRun_no_match (now : String) (st : RunStatus) (recs : Int)
    (err : Option String) (rid : Nat) (log : List RunRow)
    (h : ∀ r ∈ log, r.run_id ≠ rid) :
    updateRun now st recs err rid log = log := by
  induction log with
  | nil => rfl
  | cons a t ih =>
    have ha : a.run_id ≠ rid := h a (List.mem_cons_self a t)
    simp only [updateRun, List.map_cons, if_neg ha]
    have := ih (fun r hr => h r (List.mem_cons_of_mem a hr))
    simpa [updateRun] using this

theorem updateRun_append_fresh (now : String) (st : RunStatus) (recs : Int)
    (err : Option String) (log : List RunRow) (row : RunRow)
    (h : ∀ r ∈ log, r.run_id ≠ row.run_id) :
    updateRun now st recs err row.run_id (log ++ [row]) =
      log ++ [{ row with
        end_time := some now
        records_processed := some recs
        status := st
        error_message := err }] := by
  have h1 := updateRun_no_match now st recs err row.run_id log h
  simp only [updateRun, List.map_append, List.map_cons, List.map_nil, if_pos rfl]
  simp only [updateRun] at h1
  rw [h1]
  simp

theorem updateRun_fresh_on_log (now : String) (st : RunStatus) (recs : Int)
    (err : Option String) (log : List RunRow) (row : RunRow)
    (hrow : row.run_id = nextRunId log) :
    updateRun now st recs err (nextRunId log) (log ++ [row]) =
      log ++ [{ row with
        end_time := some now
        records_processed := some recs
        status := st
        error_message := err }] := by
  have h : ∀ r ∈ log, r.run_id ≠ row.run_id := by
    intro r hr
    have := run_id_lt_nextRunId log r hr
    omega
  rw [← hrow]
  exact updateRun_append_fresh now st recs err log row h

/-! ## Claim theorems -/

/-- C6: the load step is idempotent — running the same batch a second time
inserts nothing (the store is unchanged and the reported count is 0), so the
final row count equals that of a single run. -/
theorem C6_load_idempotent (store batch : List ObsRecord) :
    insertMany (insertMany store batch).1 batch = ((insertMany store batch).1, 0) :=
  insertMany_of_all_present batch (insertMany store batch).1
    (fun r hr => hasKey_insertMany_of_mem batch store r hr)

theorem log_etl_run_insert_eq (c : Conn) (now : String) (st : RunStatus)
    (recs : Int) (em : Option String) :
    log_etl_run c now st recs em none =
      ({ c with pending := { c.pending with etl_log := c.pending.etl_log ++
        [{ run_id := nextRunId c.pending.etl_log
           start_time := now
           end_time := none
           records_processed := none
           status := st
           error_message := none }] } },
       some (nextRunId c.pending.etl_log)) := rfl

theorem log_etl_run_update_eq (c : Conn) (now : String) (st : RunStatus)
    (recs : Int) (em : Option String) (rid : Nat) (h : rid ≠ 0) :
    log_etl_run c now st recs em (some rid) =
      (commit { c with pending := { c.pending with
        etl_log := updateRun now st recs em rid c.pending.etl_log } }, none) := by
  have ht : optNatTruthy (some rid) = true := by
    simpa [optNatTruthy] using h
  simp [log_etl_run, ht]

/-- C10: the insert branch of `log_etl_run` (begin_run) returns the new run
identifier without committing: the durable state is unchanged (first and
third conjuncts — closing or killing the connection right after begin_run
persists no run-log row), the returned identifier is the fresh
AUTOINCREMENT id (second conjunct), and the Running entry only reaches the
durable log when a later terminal `log_etl_run` update commits, at which
point the terminal row is visible (fourth conjunct). -/
theorem C10_begin_run_not_durable (c : Conn) (now : String) (st : RunStatus) :
    ((log_etl_run c now st 0 none none).1).committed = c.committed ∧
    (log_etl_run c now st 0 none none).2 = some (nextRunId c.pending.etl_log) ∧
    closeConn (log_etl_run c now st 0 none none).1 = c.committed ∧
    (∀ endT : String, ∀ st2 : RunStatus, ∀ recs : Int, ∀ em : Option String,
      ((log_etl_run (log_etl_run c now st 0 none none).1 endT st2 recs em
          (log_etl_run c now st 0 none none).2).1).committed.etl_log =
        c.pending.etl_log ++
          [{ run_id := nextRunId c.pending.etl_log
             start_time := now
             end_time := some endT
             records_processed := some recs
             status := st2
             error_message := em }]) := by
  refine ⟨rfl, rfl, rfl, ?_⟩
  intro endT st2 recs em
  rw [log_etl_run_insert_eq]
  rw [log_etl_run_update_eq _ _ _ _ _ _ (nextRunId_ne_zero c.pending.etl_log)]
  show updateRun endT st2 recs em (nextRunId c.pending.etl_log) _ = _
  rw [updateRun_fresh_on_log endT st2 recs em c.pending.etl_log _ rfl]

/-- C3 as frozen is false on the code: `log_etl_run`'s UPDATE has no
guard on the current status, so a second terminal write does overwrite a
previously recorded outcome.  Concretely, run 1 is already recorded as
Success, yet a Failure write to run 1 replaces it. -/
theorem C3_counterexample :
    c3_row.status = RunStatus.Success ∧
    ((log_etl_run (connect ⟨[], [c3_row]⟩) "e2" .Failure 0 (some "boom")
        (some 1)).1).committed.etl_log.map (fun r => r.status) =
      [RunStatus.Failure] :=
  ⟨rfl, rfl⟩

/-- C3 amended: calling end_run (`log_etl_run` with a run id) on a
non-existent run is a no-op from the caller's perspective (the pending log
is unchanged, only committed) and raises nothing past the orchestrator (the
operation is total and returns no id); on an existing run — including an
already-terminal one — it unconditionally sets end time, records-processed,
status and error message, so a second terminal write overwrites the
previously recorded outcome instead of being rejected. -/
theorem C3_amended_end_run (c : Conn) (now : String) (st : RunStatus)
    (recs : Int) (em : Option String) (rid : Nat) (hrid : rid ≠ 0) :
    (log_etl_run c now st recs em (some rid)).2 = none ∧
    ((∀ r ∈ c.pending.etl_log, r.run_id ≠ rid) →
      (log_etl_run c now st recs em (some rid)).1 = commit c) ∧
    (∀ r ∈ ((log_etl_run c now st recs em (some rid)).1).pending.etl_log,
      r.run_id = rid →
        r.status = st ∧ r.end_time = some now ∧
        r.records_processed = some recs ∧ r.error_message = em) := by
  rw [log_etl_run_update_eq c now st recs em rid hrid]
  refine ⟨rfl, ?_, ?_⟩
  · intro h
    rw [updateRun_no_match now st recs em rid c.pending.etl_log h]
  · intro r hr hrid2
    simp only [commit] at hr
    rcases List.mem_map.mp hr with ⟨x, hx, hxr⟩
    by_cases hxid : x.run_id = rid
    · rw [if_pos hxid] at hxr
      subst hxr
      exact ⟨rfl, rfl, rfl, rfl⟩
    · rw [if_neg hxid] at hxr
      subst hxr
      exact absurd hrid2 hxid

/-- Witness for C3 amended: an end_run on the non-existent run 2 of a log
holding only run 1 leaves the log unchanged (it only commits). -/
theorem C3_amended_end_run_witness :
    (log_etl_run (connect ⟨[], [c3_row]⟩) "e2" .Failure 0 (some "x")
        (some 2)).1 = commit (connect ⟨[], [c3_row]⟩) :=
  (C3_amended_end_run (connect ⟨[], [c3_row]⟩) "e2" .Failure 0 (some "x") 2
    (by decide)).2.1 (by decide)

theorem normState_short (ft : String) (xs : ValList)
    (h : xs.toList.length < 17) :
    normState ft (.list xs) = .ok none := by
  have hlen : pyLen (.list xs) = .ok xs.toList.length := rfl
  have hnot : ¬ 17 ≤ xs.toList.length := Nat.not_le.mpr h
  simp [normState, hlen, hnot, bind, Except.bind, pure, Except.pure]

theorem buildRecords_filter_short (ft : String) (states : List Val) :
    buildRecords ft states =
      buildRecords ft (states.filter (fun v => ! isShortTuple v)) := by
  induction states with
  | nil => rfl
  | cons v t ih =>
    by_cases hv : isShortTuple v = true
    · have hxs : ∃ xs : ValList, v = .list xs ∧ xs.toList.length < 17 := by
        cases v <;> simp [isShortTuple] at hv
        case list xs => exact ⟨xs, rfl, hv⟩
      obtain ⟨xs, rfl, hlen⟩ := hxs
      rw [List.filter_cons_of_neg (by simp [hv])]
      rw [← ih]
      simp only [buildRecords, normState_short ft xs hlen, bind, Except.bind,
        pure, Except.pure]
      cases buildRecords ft t <;> rfl
    · rw [List.filter_cons_of_pos (by simp [hv])]
      simp only [buildRecords]
      simp only [ih]

/-- C7: a raw tuple with fewer than 17 positional fields is silently
excluded from the batch — normalizing it yields no record and no error, and
the whole record-preparation loop gives the same result as running it on
the batch with the short tuples removed (the remaining tuples are processed
unchanged). -/
theorem C7_short_tuple_dropped (ft : String) (xs : ValList) (states : List Val)
    (h : xs.toList.length < 17) :
    normState ft (.list xs) = .ok none ∧
    buildRecords ft states =
      buildRecords ft (states.filter (fun v => ! isShortTuple v)) :=
  ⟨normState_short ft xs h, buildRecords_filter_short ft states⟩

/-- Witness for C7: a 1-field tuple is dropped without an error. -/
theorem C7_short_tuple_dropped_witness :
    (ValList.cons Val.null ValList.nil).toList.length < 17 ∧
    (normState "ft" (.list (.cons .null .nil)) = .ok none ∧
      buildRecords "ft" [.list (.cons .null .nil)] =
        buildRecords "ft" (([Val.list (.cons .null .nil)]).filter
          (fun v => ! isShortTuple v))) :=
  ⟨by decide,
   C7_short_tuple_dropped "ft" (.cons .null .nil) [.list (.cons .null .nil)]
     (by decide)⟩

/-- C8 as frozen is false on the code: a raw callsign consisting of a
single blank is truthy in `state[1].strip() if state[1] else None`, so it is
stripped to the empty string and stored as `""` — not as absent. -/
theorem C8_counterexample :
    normCallsign (.str " ") = .ok (.str (pyStripStr " ")) ∧
    pyStripStr " " = "" ∧
    Val.str "" ≠ Val.null :=
  ⟨rfl, by decide, by decide⟩

/-- C8 amended: the callsign field is the raw callsign trimmed of
surrounding whitespace; an empty (`""`) or absent (None) raw callsign is
stored as absent; but a raw callsign consisting only of whitespace is
trimmed to — and stored as — the empty string, not as absent. -/
theorem C8_amended_callsign (s : String) :
    normCallsign .null = .ok .null ∧
    normCallsign (.str "") = .ok .null ∧
    (s ≠ "" → normCallsign (.str s) = .ok (.str (pyStripStr s))) ∧
    (s.toList.all Char.isWhitespace = true → pyStripStr s = "") := by
  refine ⟨rfl, rfl, ?_, ?_⟩
  · intro h
    have ht : pyTruthy (.str s) = true := by
      simpa [pyTruthy] using h
    simp [normCallsign, ht, pyStrip]
  · intro h
    have hall : ∀ c ∈ s.data, Char.isWhitespace c := by
      simpa [String.toList, List.all_eq_true] using h
    have h1 : s.data.dropWhile Char.isWhitespace = [] :=
      List.dropWhile_eq_nil_iff.mpr hall
    simp [pyStripStr, String.toList, h1]

/-- Witness for C8 amended: a padded callsign is stripped, and a blank-only
callsign strips to the empty string. -/
theorem C8_amended_callsign_witness :
    normCallsign (.str "  UAL123  ") = .ok (.str (pyStripStr "  UAL123  ")) ∧
    pyStripStr " " = "" :=
  ⟨(C8_amended_callsign "  UAL123  ").2.2.1 (by decide),
   (C8_amended_callsign " ").2.2.2 (by decide)⟩

end OpenSky



namespace OpenSky

theorem fetch_unfold (db : DB) (sT fT eT : String) (fr : Except String Val) :
    fetch_and_append_data db sT fT eT fr =
      (match tryBody ⟨db, ⟨db.opensky_data, db.etl_log ++ [runningRow db sT]⟩⟩
          (nextRunId db.etl_log) fr fT eT with
       | .ok c2 => (c2.committed, none)
       | .error e =>
         (⟨db.opensky_data, updateRun eT .Failure 0 (some e) (nextRunId db.etl_log)
             (db.etl_log ++ [runningRow db sT])⟩, none)) := rfl

theorem cycleFailed_unfold (db : DB) (sT fT eT : String) (fr : Except String Val) :
    cycleFailed db sT fT eT fr =
      (match tryBody ⟨db, ⟨db.opensky_data, db.etl_log ++ [runningRow db sT]⟩⟩
          (nextRunId db.etl_log) fr fT eT with
       | .error _ => true
       | .ok _ => false) := rfl

theorem tryBody_ok_shape (c : Conn) (rid : Nat) (hrid : rid ≠ 0)
    (fr : Except String Val) (fT eT : String) (c2 : Conn)
    (h : tryBody c rid fr fT eT = .ok c2) :
    ∃ n : Int,
      c2.committed.etl_log = updateRun eT .Success n none rid c.pending.etl_log := by
  cases fr with
  | error e => simp [tryBody] at h
  | ok data =>
    cases hdg : dictGet data "states" (.list .nil) with
    | error e => simp [tryBody, hdg] at h
    | ok states =>
      by_cases hts : pyTruthy states = false
      · simp only [tryBody, hdg, hts, eq_self_iff_true, if_true] at h
        injection h with h
        refine ⟨0, ?_⟩
        rw [← h, log_etl_run_update_eq c eT .Success 0 none rid hrid]
        rfl
      · simp only [tryBody, hdg, if_neg hts] at h
        cases hit : pyIter (pyOr states (.list .nil)) with
        | error e => simp [hit] at h
        | ok stateList =>
          simp only [hit] at h
          cases hbr : buildRecords fT stateList with
          | error e => simp [hbr] at h
          | ok recs =>
            simp only [hbr] at h
            cases recs with
            | nil =>
              simp only [Except.ok.injEq] at h
              refine ⟨0, ?_⟩
              rw [← h, log_etl_run_update_eq c eT .Success 0 none rid hrid]
              rfl
            | cons r rest =>
              simp only [Except.ok.injEq] at h
              refine ⟨Int.ofNat (insertMany c.pending.opensky_data (r :: rest)).2, ?_⟩
              rw [← h, log_etl_run_update_eq _ eT .Success _ none rid hrid]
              rfl

theorem cycle_log_shape (db : DB) (sT fT eT : String) (fr : Except String Val) :
    (fetch_and_append_data db sT fT eT fr).2 = none ∧
    ∃ row : RunRow,
      (fetch_and_append_data db sT fT eT fr).1.etl_log = db.etl_log ++ [row] ∧
      row.run_id = nextRunId db.etl_log ∧
      row.start_time = sT ∧
      row.end_time = some eT ∧
      row.status = (if cycleFailed db sT fT eT fr = true then RunStatus.Failure
                    else RunStatus.Success) := by
  rw [fetch_unfold, cycleFailed_unfold]
  cases h : tryBody ⟨db, ⟨db.opensky_data, db.etl_log ++ [runningRow db sT]⟩⟩
      (nextRunId db.etl_log) fr fT eT with
  | error e =>
    refine ⟨rfl, { runningRow db sT with
        end_time := some eT
        records_processed := some 0
        status := .Failure
        error_message := some e }, ?_, rfl, rfl, rfl, rfl⟩
    exact updateRun_fresh_on_log eT .Failure 0 (some e) db.etl_log (runningRow db sT) rfl
  | ok c2 =>
    obtain ⟨n, hlog⟩ := tryBody_ok_shape _ _ (nextRunId_ne_zero db.etl_log) _ _ _ _ h
    refine ⟨rfl, { runningRow db sT with
        end_time := some eT
        records_processed := some n
        status := .Success
        error_message := none }, ?_, rfl, rfl, rfl, rfl⟩
    show c2.committed.etl_log = _
    rw [hlog]
    exact updateRun_fresh_on_log eT .Success n none db.etl_log (runningRow db sT) rfl

theorem runOneCycle_log_length (db : DB) (i : CycleInput) :
    (runOneCycle db i).etl_log.length = db.etl_log.length + 1 := by
  obtain ⟨-, row, hlog, -, -, -, -⟩ :=
    cycle_log_shape db i.start_time i.fetch_time i.end_time i.fetched
  simp [runOneCycle, hlog]

theorem mainLoop_log_length (inputs : List CycleInput) (db : DB) :
    (mainLoop db inputs).etl_log.length = db.etl_log.length + inputs.length := by
  induction inputs generalizing db with
  | nil => simp [mainLoop]
  | cons a t ih =>
    have h1 := runOneCycle_log_length db a
    have h2 := ih (runOneCycle db a)
    simp only [mainLoop, List.foldl_cons] at h2 ⊢
    simp only [List.length_cons]
    omega

/-- C4: a fetch error (network failure, timeout or non-2xx status, all
surfacing as an exception from the fetch) makes the cycle write exactly one
run-log row — the cycle's own Running row turned terminal — with status
Failure, a non-absent error message carrying the error's description, and
records-processed 0; the observation store is untouched, and nothing
propagates to the caller. -/
theorem C4_fetch_error_failure (db : DB) (sT fT eT msg : String) :
    fetch_and_append_data db sT fT eT (.error msg) =
      (⟨db.opensky_data, db.etl_log ++
        [{ run_id := nextRunId db.etl_log
           start_time := sT
           end_time := some eT
           records_processed := some 0
           status := .Failure
           error_message := some msg }]⟩, none) := by
  have h1 : fetch_and_append_data db sT fT eT (.error msg) =
      (⟨db.opensky_data, updateRun eT .Failure 0 (some msg) (nextRunId db.etl_log)
          (db.etl_log ++ [runningRow db sT])⟩, none) := rfl
  rw [h1]
  exact congrArg (fun l => ((⟨db.opensky_data, l⟩ : DB), (none : Option String)))
    (updateRun_fresh_on_log eT .Failure 0 (some msg) db.etl_log (runningRow db sT) rfl)

/-- C5: a response whose `states` collection is missing (the dict lookup
falls back to the default `[]`), null, or empty makes the cycle a
zero-record success: the load step is skipped, no observation rows are
written, and the cycle's run-log row ends Success with records-processed 0
and no error message. -/
theorem C5_empty_states_success (db : DB) (sT fT eT : String) (data states : Val)
    (hdg : dictGet data "states" (.list .nil) = .ok states)
    (hempty : states = .null ∨ states = .list .nil) :
    fetch_and_append_data db sT fT eT (.ok data) =
      (⟨db.opensky_data, db.etl_log ++
        [{ run_id := nextRunId db.etl_log
           start_time := sT
           end_time := some eT
           records_processed := some 0
           status := .Success
           error_message := none }]⟩, none) := by
  have hts : pyTruthy states = false := by rcases hempty with rfl | rfl <;> rfl
  rw [fetch_unfold]
  have htb : tryBody ⟨db, ⟨db.opensky_data, db.etl_log ++ [runningRow db sT]⟩⟩
      (nextRunId db.etl_log) (.ok data) fT eT =
      .ok (log_etl_run ⟨db, ⟨db.opensky_data, db.etl_log ++ [runningRow db sT]⟩⟩
        eT .Success 0 none (some (nextRunId db.etl_log))).1 := by
    simp [tryBody, hdg, hts]
  rw [htb]
  exact congrArg (fun l => ((⟨db.opensky_data, l⟩ : DB), (none : Option String)))
    (updateRun_fresh_on_log eT .Success 0 none db.etl_log (runningRow db sT) rfl)

/-- C5 witness: a response with no `states` key, against an empty store,
yields Success with records-processed 0 and an unchanged (empty) store. -/
theorem C5_empty_states_success_witness :
    fetch_and_append_data ⟨[], []⟩ "t0" "ft" "t1" (.ok (.dict .nil)) =
      (⟨[], [{ run_id := 1
               start_time := "t0"
               end_time := some "t1"
               records_processed := some 0
               status := .Success
               error_message := none }]⟩, none) :=
  C5_empty_states_success ⟨[], []⟩ "t0" "ft" "t1" (.dict .nil) (.list .nil)
    rfl (Or.inr rfl)

/-- C2: for every cycle input — whatever the fetch outcome, including every
exception the try body can raise after begin_run — the orchestrator
propagates nothing to the driver; the cycle commits exactly one run-log
row, terminal (Failure exactly when the try body raised, Success otherwise)
with its end time set; and the driver therefore runs all scheduled cycles,
durably recording one outcome row per cycle. -/
theorem C2_cycle_isolation (db : DB) (sT fT eT : String) (fr : Except String Val)
    (inputs : List CycleInput) :
    (fetch_and_append_data db sT fT eT fr).2 = none ∧
    (∃ row : RunRow,
      (fetch_and_append_data db sT fT eT fr).1.etl_log = db.etl_log ++ [row] ∧
      row.end_time = some eT ∧
      row.status = (if cycleFailed db sT fT eT fr = true then RunStatus.Failure
                    else RunStatus.Success)) ∧
    (mainLoop db inputs).etl_log.length = db.etl_log.length + inputs.length := by
  obtain ⟨h1, row, hlog, -, -, he, hs⟩ := cycle_log_shape db sT fT eT fr
  exact ⟨h1, ⟨row, hlog, he, hs⟩, mainLoop_log_length inputs db⟩

/-- C9: the end-to-end scenario — the spec's single-state response applied
to an empty store yields exactly one stored observation with aircraft id
"abc123", trimmed callsign "UAL123", comma-joined sensors "1,2" and the
cycle's (non-absent) fetch time, and a Success run-log row with
records-processed 1. -/
theorem C9_end_to_end :
    fetch_and_append_data ⟨[], []⟩ "t0" "ft" "t1" (.ok c9_data) =
      (⟨[c9_record], [{ run_id := 1
                        start_time := "t0"
                        end_time := some "t1"
                        records_processed := some 1
                        status := .Success
                        error_message := none }]⟩, none) ∧
    c9_record.icao24 = .str "abc123" ∧
    c9_record.callsign = .str "UAL123" ∧
    c9_record.sensors = .str "1,2" ∧
    c9_record.fetch_time = "ft" := by
  exact ⟨rfl, rfl, rfl, rfl, rfl⟩

/-- C1: for every batch of normalized records, the load step inserts at most
one observation row per natural key `(icao24, last_contact)` — whether the
key is duplicated within the batch or already present in storage: the
store's keys stay duplicate-free and the count the loader reports is
exactly the number of rows actually newly inserted (the growth of the
store), not the batch size.  Moreover, in a cycle whose load step runs, the
run-log row records exactly that count as records-processed, and the final
store is the idempotent-insert result. -/
theorem C1_load_dedup_and_count (store batch : List ObsRecord)
    (h : (store.map obsKey).Nodup) :
    (((insertMany store batch).1.map obsKey).Nodup ∧
      (insertMany store batch).1.length = store.length + (insertMany store batch).2) ∧
    (∀ (db : DB) (sT fT eT : String) (data states : Val) (stateList : List Val)
        (r : ObsRecord) (rest : List ObsRecord),
      dictGet data "states" (.list .nil) = .ok states →
      pyTruthy states = true →
      pyIter (pyOr states (.list .nil)) = .ok stateList →
      buildRecords fT stateList = .ok (r :: rest) →
      fetch_and_append_data db sT fT eT (.ok data) =
        (⟨(insertMany db.opensky_data (r :: rest)).1, db.etl_log ++
          [{ runningRow db sT with
             end_time := some eT
             records_processed := some (Int.ofNat
               (insertMany db.opensky_data (r :: rest)).2)
             status := .Success
             error_message := none }]⟩, none)) := by
  refine ⟨⟨insertMany_nodupKeys batch store h, insertMany_length batch store⟩, ?_⟩
  intro db sT fT eT data states stateList r rest hdg hts hit hbr
  rw [fetch_unfold]
  have hfalse : ¬ pyTruthy states = false := by simp [hts]
  have htb : tryBody ⟨db, ⟨db.opensky_data, db.etl_log ++ [runningRow db sT]⟩⟩
      (nextRunId db.etl_log) (.ok data) fT eT =
      .ok (log_etl_run (commit ⟨db, ⟨(insertMany db.opensky_data (r :: rest)).1,
          db.etl_log ++ [runningRow db sT]⟩⟩)
        eT .Success (Int.ofNat (insertMany db.opensky_data (r :: rest)).2) none
        (some (nextRunId db.etl_log))).1 := by
    simp only [tryBody, hdg, if_neg hfalse, hit, hbr]
  rw [htb]
  rw [log_etl_run_update_eq _ eT .Success _ none _ (nextRunId_ne_zero db.etl_log)]
  exact congrArg (fun l => ((⟨(insertMany db.opensky_data (r :: rest)).1, l⟩ : DB),
      (none : Option String)))
    (updateRun_fresh_on_log eT .Success _ none db.etl_log (runningRow db sT) rfl)

/-- Witness for C1: a batch with an in-batch duplicate and a key already in
storage inserts one row and reports 1, not the batch size 3; and the
end-to-end insert cycle on the spec scenario logs exactly the loader's
count. -/
theorem C1_load_dedup_and_count_witness :
    ((((insertMany [sampleRec "a" 1 "x"]
        [sampleRec "a" 1 "y", sampleRec "b" 2 "z", sampleRec "b" 2 "z"]).1.map
          obsKey).Nodup ∧
      (insertMany [sampleRec "a" 1 "x"]
        [sampleRec "a" 1 "y", sampleRec "b" 2 "z", sampleRec "b" 2 "z"]).1.length =
        [sampleRec "a" 1 "x"].length +
        (insertMany [sampleRec "a" 1 "x"]
          [sampleRec "a" 1 "y", sampleRec "b" 2 "z", sampleRec "b" 2 "z"]).2) ∧
      (insertMany [sampleRec "a" 1 "x"]
        [sampleRec "a" 1 "y", sampleRec "b" 2 "z", sampleRec "b" 2 "z"]).2 = 1) ∧
    fetch_and_append_data ⟨[], []⟩ "t0" "ft" "t1" (.ok c9_data) =
      (⟨(insertMany ([] : List ObsRecord) [c9_record]).1, [] ++
        [{ runningRow ⟨[], []⟩ "t0" with
           end_time := some "t1"
           records_processed := some (Int.ofNat
             (insertMany ([] : List ObsRecord) [c9_record]).2)
           status := .Success
           error_message := none }]⟩, none) :=
  ⟨⟨(C1_load_dedup_and_count [sampleRec "a" 1 "x"]
      [sampleRec "a" 1 "y", sampleRec "b" 2 "z", sampleRec "b" 2 "z"] (by decide)).1,
    by decide⟩,
   (C1_load_dedup_and_count [] [] (by decide)).2 ⟨[], []⟩ "t0" "ft" "t1" c9_data
     (vlist [c9_state]) [c9_state] c9_record [] rfl rfl rfl rfl⟩

end OpenSky

